import Mathlib

/-! Shallow embedding of the real-time voice-conversation core of the studio
application: the VoiceAssistant component (session state, capture encode path,
playback scheduling cursor, transcript aggregation) together with the
authorization gate of the video-generation panel. The definitions translate the
source handlers (startSession, stopSession, the live-API callbacks onmessage /
onerror / onclose, the capture callback's float-to-PCM16 conversion, and
generateVideo's key gate) into pure state-transition functions; the theorems
settle the specification claims against them. -/

namespace Studio

/-- Speaker role of a finalized transcript turn. -/
inductive Role
  | user
  | model
deriving DecidableEq

/-- One finalized transcript turn, as pushed into the `transcription` list by
the turn-complete branch of `onmessage`. -/
structure Turn where
  role : Role
  text : String
deriving DecidableEq

/-- A playback source node created by the audio branch of `onmessage`:
`sid` identifies the `AudioBufferSourceNode`, `startTime` is the argument of
its `source.start(...)` call, `duration` the decoded buffer duration, and
`stopped` records whether `stop()` was invoked on it (by the interruption
flush). -/
structure SourceNode where
  sid : Nat
  startTime : ℚ
  duration : ℚ
  stopped : Bool
deriving DecidableEq

/-- An inbound audio chunk: the raw bytes carried by
`message.serverContent.modelTurn.parts[0].inlineData.data` after base64
decoding. -/
structure Chunk where
  bytes : List Nat
deriving DecidableEq

/-- One inbound server message, with exactly the optional parts the
`onmessage` callback reads: output/input transcription fragments, the
turn-complete flag, an audio chunk, and the interruption flag. -/
structure ServerMessage where
  outputTranscription : Option String
  inputTranscription : Option String
  turnComplete : Bool
  audioData : Option Chunk
  interrupted : Bool
deriving DecidableEq

/-- The mutable state of the VoiceAssistant component: the React state
(`isActive`, `isConnecting`, `error`, `transcription`) and the refs
(`currentInputTranscription`, `currentOutputTranscription`, `nextStartTime`
for `nextStartTimeRef`, `activeSources` for `sourcesRef` as the list of node
ids, `sessionRef` as `sessionOpen`, the two audio-context refs as the
`...CtxSet` flags). `allSources` records every source node ever created, and
the `...CloseCalls` counters record how many times each resource's `close()`
was invoked, so that release-exactly-once claims are expressible. -/
structure VoiceState where
  isActive : Bool
  isConnecting : Bool
  error : Option String
  transcription : List Turn
  currentInputTranscription : String
  currentOutputTranscription : String
  nextStartTime : ℚ
  activeSources : List Nat
  allSources : List SourceNode
  micOpen : Bool
  sessionOpen : Bool
  sessionCloseCalls : Nat
  inputCtxSet : Bool
  inputCtxCloseCalls : Nat
  outputCtxSet : Bool
  outputCtxCloseCalls : Nat
deriving DecidableEq

/-- The component's initial state: all refs null, cursor at 0, no error, empty
transcript. -/
def initialState : VoiceState where
  isActive := false
  isConnecting := false
  error := none
  transcription := []
  currentInputTranscription := ""
  currentOutputTranscription := ""
  nextStartTime := 0
  activeSources := []
  allSources := []
  micOpen := false
  sessionOpen := false
  sessionCloseCalls := 0
  inputCtxSet := false
  inputCtxCloseCalls := 0
  outputCtxSet := false
  outputCtxCloseCalls := 0

/-- External side effects the embedded handlers can emit. -/
inductive Effect
  | requestAuthorization
  | micAcquire
  | connectOpen
  | beginGeneration
deriving DecidableEq

/-- JavaScript `ToIntegerOrInfinity` on a rational: truncation toward zero
(the first step of the `Int16Array` element conversion applied by
`int16[i] = inputData[i] * 32768`). -/
def jsTrunc (q : ℚ) : ℤ :=
  q.num / (q.den : ℤ)

/-- JavaScript `ToInt16`: reduce modulo 2^16 into the range
[-32768, 32767]. This is the wrap-around conversion an `Int16Array` element
store performs. -/
def toInt16 (n : ℤ) : ℤ :=
  let m := n % 65536
  if 32768 ≤ m then m - 65536 else m

/-- One sample of the capture callback's conversion:
`int16[i] = inputData[i] * 32768` stored into an `Int16Array`. -/
def sampleToPCM16 (x : ℚ) : ℤ :=
  toInt16 (jsTrunc (x * 32768))

/-- The capture callback's whole-block conversion from float samples to
16-bit values (`scriptProcessor.onaudioprocess`). -/
def floatSamplesToPCM16 (xs : List ℚ) : List ℤ :=
  xs.map sampleToPCM16

/-- Modelled from the spec: `decode` / `decodeAudioData` live in
`audio-utils`, which is not among the source files. Per the spec the PCM16
codec rejects buffers whose byte length is not a multiple of 2
(`MalformedFrame`); a well-formed buffer of n bytes at 24000 Hz mono decodes
to a buffer of duration (n / 2) / 24000 seconds. -/
def decodeAudioDataDuration (bytes : List Nat) : Except Unit ℚ :=
  if bytes.length % 2 = 0 then Except.ok (((bytes.length : ℚ) / 2) / 24000)
  else Except.error ()

/-- First part of `onmessage`: the transcription-fragment branch. The source
uses if / else-if, so when a message carries both fragments only the output
fragment is appended. -/
def transcriptionStep (m : ServerMessage) (s : VoiceState) : VoiceState :=
  match m.outputTranscription with
  | some t => { s with currentOutputTranscription := s.currentOutputTranscription ++ t }
  | none =>
    match m.inputTranscription with
    | some t => { s with currentInputTranscription := s.currentInputTranscription ++ t }
    | none => s

/-- Second part of `onmessage`: on `turnComplete`, append a user turn (if the
pending input text is non-empty, JavaScript truthiness) then a model turn (if
the pending output text is non-empty) to the transcript, then clear both
accumulators. -/
def turnCompleteStep (m : ServerMessage) (s : VoiceState) : VoiceState :=
  if m.turnComplete then
    let u := s.currentInputTranscription
    let v := s.currentOutputTranscription
    let s1 :=
      if u ≠ "" ∨ v ≠ "" then
        { s with transcription :=
            s.transcription
              ++ (if u ≠ "" then [⟨Role.user, u⟩] else [])
              ++ (if v ≠ "" then [⟨Role.model, v⟩] else []) }
      else s
    { s1 with currentInputTranscription := "", currentOutputTranscription := "" }
  else s

/-- The scheduling core of the audio branch of `onmessage`, for a buffer of
duration `d` at device time `t`: raise the cursor to
`max(nextStartTime, currentTime)`, call `source.start(cursor)`, advance the
cursor by the duration, and add the source to the active set. -/
def enqueueBuffer (t d : ℚ) (s : VoiceState) : VoiceState :=
  let c := max s.nextStartTime t
  { s with
      nextStartTime := c + d
      allSources := s.allSources ++ [⟨s.allSources.length, c, d, false⟩]
      activeSources := s.activeSources ++ [s.allSources.length] }

/-- Third part of `onmessage`: if the message carries audio data, decode it
and enqueue the decoded buffer. The cursor max-update precedes the decode in
the source, so a failing decode still leaves the raised cursor behind; the
handler has no try/catch, so a decode failure aborts the rest of the handler
(second component `true`). -/
def audioStep (t : ℚ) (m : ServerMessage) (s : VoiceState) : VoiceState × Bool :=
  match m.audioData with
  | none => (s, false)
  | some c =>
    match decodeAudioDataDuration c.bytes with
    | Except.ok d => (enqueueBuffer t d s, false)
    | Except.error _ => ({ s with nextStartTime := max s.nextStartTime t }, true)

/-- Fourth part of `onmessage`: on the interruption flag, stop every source in
the active set, clear the set, and reset the cursor to 0. -/
def interruptStep (m : ServerMessage) (s : VoiceState) : VoiceState :=
  if m.interrupted then
    { s with
        allSources := s.allSources.map fun n =>
          if n.sid ∈ s.activeSources then { n with stopped := true } else n
        activeSources := []
        nextStartTime := 0 }
  else s

/-- The whole `onmessage` callback at device time `t`: transcription
fragments, then turn completion, then the audio chunk, then the interruption
flag, in that fixed source order. The Bool is `true` when the handler threw
(a decode failure), in which case the interruption part is skipped. -/
def onmessage (t : ℚ) (m : ServerMessage) (s : VoiceState) : VoiceState × Bool :=
  let s1 := transcriptionStep m s
  let s2 := turnCompleteStep m s1
  let r := audioStep t m s2
  if r.2 then (r.1, true) else (interruptStep m r.1, false)

/-- `stopSession`: close the remote session if its ref is set and null the
ref; call `close()` on each audio context whose ref is set (the refs are not
nulled by the source); clear the active/connecting flags. The microphone
stream is never released by the source. -/
def stopSession (s : VoiceState) : VoiceState :=
  let s1 :=
    if s.sessionOpen then
      { s with sessionCloseCalls := s.sessionCloseCalls + 1, sessionOpen := false }
    else s
  let s2 :=
    if s1.inputCtxSet then
      { s1 with inputCtxCloseCalls := s1.inputCtxCloseCalls + 1 }
    else s1
  let s3 :=
    if s2.outputCtxSet then
      { s2 with outputCtxCloseCalls := s2.outputCtxCloseCalls + 1 }
    else s2
  { s3 with isActive := false, isConnecting := false }

/-- The `onerror` live-API callback: set the retryable error message, then run
`stopSession`. -/
def onerror (s : VoiceState) : VoiceState :=
  stopSession { s with error := some "Connection lost. Please try again." }

/-- The `onclose` live-API callback: run `stopSession` only; no error is
set. -/
def onclose (s : VoiceState) : VoiceState :=
  stopSession s

/-- The environment a `startSession` call runs against: whether
`navigator.mediaDevices.getUserMedia` exists, whether microphone acquisition
fails (with the mapped error message) or succeeds, and whether the live
connection opens. -/
structure Env where
  mediaDevicesSupported : Bool
  micError : Option String
  connectOpens : Bool
deriving DecidableEq

/-- `startSession`: clear the error, set connecting, reset the transcript;
then, inside the try block, check recording support, acquire the microphone,
create the audio contexts, and connect (on open: active). The source contains
no authorization check at all, which the unused `_isAuthorized` parameter
makes explicit: the result does not depend on it. -/
def startSession (_isAuthorized : Bool) (env : Env) (s : VoiceState) :
    VoiceState × List Effect :=
  let s0 := { s with error := none, isConnecting := true, transcription := [] }
  if env.mediaDevicesSupported then
    match env.micError with
    | some msg => ({ s0 with isConnecting := false, error := some msg }, [])
    | none =>
      let s1 := { s0 with micOpen := true, inputCtxSet := true, outputCtxSet := true }
      if env.connectOpens then
        ({ s1 with isConnecting := false, isActive := true, sessionOpen := true },
         [Effect.micAcquire, Effect.connectOpen])
      else
        ({ s1 with isConnecting := false,
                   error := some "Failed to start voice assistant." },
         [Effect.micAcquire])
  else
    ({ s0 with isConnecting := false,
               error := some "Your browser does not support audio recording." }, [])

/-- The video-panel state touched by the head of `generateVideo`. -/
structure VideoState where
  isGenerating : Bool
  videoUrl : Option String
  status : String
deriving DecidableEq

/-- The head of `generateVideo` in VideoStudio: with no API key selected it
invokes the key selector (`onOpenKeySelector`, the authorization request) and
returns at once, before any state change or request; otherwise it marks
generation as running and issues the generation request. -/
def generateVideo (isKeySelected : Bool) (s : VideoState) : VideoState × List Effect :=
  if isKeySelected then
    ({ s with isGenerating := true, videoUrl := none,
              status := "Initializing generation..." },
     [Effect.beginGeneration])
  else (s, [Effect.requestAuthorization])

/-- Iterated enqueue of a sequence of decoded buffer durations, all arriving
while the device clock reads 0 (the gapless-scheduling scenario). -/
def enqueueAll (ds : List ℚ) (s : VoiceState) : VoiceState :=
  ds.foldl (fun st d => enqueueBuffer 0 d st) s

/-- The source nodes `enqueueAll` creates, starting from node id `i` and
cursor `c`: each buffer starts at `max cursor 0` and advances the cursor by
its duration. -/
def newNodes (i : Nat) (c : ℚ) : List ℚ → List SourceNode
  | [] => []
  | d :: rest => ⟨i, max c 0, d, false⟩ :: newNodes (i + 1) (max c 0 + d) rest

/-- A sample mid-session state: one source (id 0) scheduled and active, all
resources open, cursor past the first buffer. -/
def demoActive : VoiceState :=
  { initialState with
      isActive := true
      sessionOpen := true
      inputCtxSet := true
      outputCtxSet := true
      micOpen := true
      nextStartTime := 1
      activeSources := [0]
      allSources := [⟨0, 0, 1, false⟩] }

/-- A message carrying only the interruption flag. -/
def interruptMsg : ServerMessage :=
  ⟨none, none, false, none, true⟩

/-- A message carrying a well-formed two-byte audio chunk and the interruption
flag together. -/
def audioInterruptMsg : ServerMessage :=
  ⟨none, none, false, some ⟨[0, 0]⟩, true⟩

/-- An environment in which recording is supported, the microphone is granted,
and the connection opens. -/
def okEnv : Env :=
  ⟨true, none, true⟩

@[simp]
theorem transcriptionStep_transcription (m : ServerMessage) (s : VoiceState) :
    (transcriptionStep m s).transcription = s.transcription := by
  cases ho : m.outputTranscription <;> cases hi : m.inputTranscription <;>
    simp [transcriptionStep, ho, hi]

@[simp]
theorem transcriptionStep_allSources (m : ServerMessage) (s : VoiceState) :
    (transcriptionStep m s).allSources = s.allSources := by
  cases ho : m.outputTranscription <;> cases hi : m.inputTranscription <;>
    simp [transcriptionStep, ho, hi]

@[simp]
theorem transcriptionStep_activeSources (m : ServerMessage) (s : VoiceState) :
    (transcriptionStep m s).activeSources = s.activeSources := by
  cases ho : m.outputTranscription <;> cases hi : m.inputTranscription <;>
    simp [transcriptionStep, ho, hi]

@[simp]
theorem turnCompleteStep_allSources (m : ServerMessage) (s : VoiceState) :
    (turnCompleteStep m s).allSources = s.allSources := by
  unfold turnCompleteStep
  by_cases hc : m.turnComplete = true
  · by_cases huv : s.currentInputTranscription ≠ "" ∨ s.currentOutputTranscription ≠ "" <;>
      simp [hc, huv]
  · simp [hc]

@[simp]
theorem turnCompleteStep_activeSources (m : ServerMessage) (s : VoiceState) :
    (turnCompleteStep m s).activeSources = s.activeSources := by
  unfold turnCompleteStep
  by_cases hc : m.turnComplete = true
  · by_cases huv : s.currentInputTranscription ≠ "" ∨ s.currentOutputTranscription ≠ "" <;>
      simp [hc, huv]
  · simp [hc]

@[simp]
theorem audioStep_transcription (t : ℚ) (m : ServerMessage) (s : VoiceState) :
    (audioStep t m s).1.transcription = s.transcription := by
  unfold audioStep
  cases ha : m.audioData with
  | none => rfl
  | some c => cases hd : decodeAudioDataDuration c.bytes <;> simp [hd, enqueueBuffer]

@[simp]
theorem interruptStep_transcription (m : ServerMessage) (s : VoiceState) :
    (interruptStep m s).transcription = s.transcription := by
  unfold interruptStep
  split <;> rfl

/-- Whatever `turnCompleteStep` does, the previous transcript is an initial
segment of the new one. -/
theorem turnCompleteStep_appends (m : ServerMessage) (s : VoiceState) :
    ∃ rest, s.transcription ++ rest = (turnCompleteStep m s).transcription := by
  unfold turnCompleteStep
  cases hc : m.turnComplete
  · exact ⟨[], by simp⟩
  · by_cases huv : s.currentInputTranscription ≠ "" ∨ s.currentOutputTranscription ≠ ""
    · refine ⟨(if s.currentInputTranscription ≠ "" then
          [⟨Role.user, s.currentInputTranscription⟩] else [])
            ++ (if s.currentOutputTranscription ≠ "" then
          [⟨Role.model, s.currentOutputTranscription⟩] else []), ?_⟩
      simp [huv, List.append_assoc]
    · exact ⟨[], by simp [huv]⟩

/-- The `onmessage` handler changes the transcript exactly as its
turn-completion part does. -/
theorem onmessage_transcription (t : ℚ) (m : ServerMessage) (s : VoiceState) :
    (onmessage t m s).1.transcription
      = (turnCompleteStep m (transcriptionStep m s)).transcription := by
  unfold onmessage
  by_cases h : (audioStep t m (turnCompleteStep m (transcriptionStep m s))).2 = true <;>
    simp [h]

theorem newNodes_length (ds : List ℚ) (i : Nat) (c : ℚ) :
    (newNodes i c ds).length = ds.length := by
  induction ds generalizing i c with
  | nil => rfl
  | cons d rest ih => simp [newNodes, ih]

/-- Characterization of iterated enqueueing at device time 0: it appends to
`allSources` exactly the nodes described by `newNodes`, starting at the next
free id and the current cursor. -/
theorem enqueueAll_allSources (ds : List ℚ) (s : VoiceState) :
    (enqueueAll ds s).allSources
      = s.allSources ++ newNodes s.allSources.length s.nextStartTime ds := by
  induction ds generalizing s with
  | nil => simp [enqueueAll, newNodes]
  | cons d rest ih =>
    show (enqueueAll rest (enqueueBuffer 0 d s)).allSources = _
    rw [ih]
    simp [enqueueBuffer, newNodes, List.append_assoc]

/-- The k-th node scheduled by `newNodes` from a nonnegative cursor `c` over
nonnegative durations starts at `c` plus the sum of the previous
durations. -/
theorem newNodes_getD_startTime (ds : List ℚ) (i : Nat) (c : ℚ) (hc : 0 ≤ c)
    (hds : ∀ d ∈ ds, 0 ≤ d) (k : Nat) (hk : k < ds.length) :
    ((newNodes i c ds).map SourceNode.startTime).getD k 0 = c + (ds.take k).sum := by
  induction ds generalizing i c k with
  | nil => simp at hk
  | cons d rest ih =>
    cases k with
    | zero => simp [newNodes, max_eq_left hc]
    | succ k =>
      have hd : 0 ≤ d := hds d (by simp)
      have hmax : max c 0 = c := max_eq_left hc
      have hc2 : 0 ≤ c + d := by positivity
      have hds2 : ∀ x ∈ rest, 0 ≤ x := fun x hx => hds x (by simp [hx])
      have hk2 : k < rest.length := by simpa using hk
      have key := ih (i + 1) (c + d) hc2 hds2 k hk2
      simp only [newNodes, hmax, List.map_cons, List.getD_cons_succ, key,
        List.take_succ_cons, List.sum_cons]
      ring

/-- Enqueueing a buffer and then running the interruption flush in the same
handler: the active set ends empty, the cursor resets, and the appended node
is stopped. -/
theorem enqueue_then_interrupt (m : ServerMessage) (hi : m.interrupted = true)
    (t d : ℚ) (s : VoiceState) :
    (interruptStep m (enqueueBuffer t d s)).activeSources = [] ∧
    (interruptStep m (enqueueBuffer t d s)).nextStartTime = 0 ∧
    (interruptStep m (enqueueBuffer t d s)).allSources.length
      = s.allSources.length + 1 ∧
    (interruptStep m (enqueueBuffer t d s)).allSources.drop s.allSources.length
      = [⟨s.allSources.length, max s.nextStartTime t, d, true⟩] := by
  refine ⟨by simp [interruptStep, hi], by simp [interruptStep, hi], ?_, ?_⟩
  · simp [interruptStep, hi, enqueueBuffer]
  · simp only [interruptStep, hi, if_true, enqueueBuffer, List.map_append]
    rw [List.drop_append_of_le_length (by simp)]
    simp

/-- Claim C1, counterexample: `startSession` called while the caller is not
authorized (first argument `false`) nevertheless acquires the microphone,
never invokes `requestAuthorization`, and proceeds past Connecting all the way
to Active — the session start contains no authorization check. -/
theorem c1_counterexample :
    Effect.micAcquire ∈ (startSession false okEnv initialState).2 ∧
    Effect.requestAuthorization ∉ (startSession false okEnv initialState).2 ∧
    (startSession false okEnv initialState).1.isActive = true := by
  decide

/-- Claim C1, amended: the session's `startSession` performs no authorization
check — its result is independent of the authorization signal, and whenever
recording is supported and the microphone granted it acquires the microphone
even for an unauthorized caller. The claimed abort-and-request behavior exists
only in the video-generation flow: `generateVideo` with no key selected
invokes the key selector (the authorization request) and returns with its
state unchanged, before any generation starts. -/
theorem c1_amended :
    (∀ (a b : Bool) (env : Env) (s : VoiceState),
        startSession a env s = startSession b env s) ∧
    (∀ (env : Env) (s : VoiceState), env.mediaDevicesSupported = true →
        env.micError = none →
        Effect.micAcquire ∈ (startSession false env s).2) ∧
    (∀ vs : VideoState, generateVideo false vs = (vs, [Effect.requestAuthorization])) := by
  refine ⟨fun a b env s => rfl, ?_, fun vs => rfl⟩
  intro env s h1 h2
  unfold startSession
  simp only [h1, h2, if_true]
  cases hc : env.connectOpens <;> simp [hc]

/-- Witness for the amended claim C1 at a concrete environment. -/
theorem c1_amended_witness :
    okEnv.mediaDevicesSupported = true ∧ okEnv.micError = none ∧
    Effect.micAcquire ∈ (startSession false okEnv demoActive).2 :=
  ⟨rfl, rfl, c1_amended.2.1 okEnv demoActive rfl rfl⟩

/-- Claim C2: after the interruption handler runs, the active-source set is
empty and the scheduling cursor is reset to 0; an enqueue performed next, at
any nonnegative device time `t`, schedules its buffer to start exactly at `t`
(the device's current time), never at the stale pre-interruption cursor. -/
theorem c2_interrupt_resets (s : VoiceState) (m : ServerMessage)
    (hm : m.interrupted = true) (t d : ℚ) (ht : 0 ≤ t) :
    (interruptStep m s).activeSources = [] ∧
    (interruptStep m s).nextStartTime = 0 ∧
    (enqueueBuffer t d (interruptStep m s)).allSources
      = (interruptStep m s).allSources
          ++ [⟨(interruptStep m s).allSources.length, t, d, false⟩] := by
  refine ⟨by simp [interruptStep, hm], by simp [interruptStep, hm], ?_⟩
  have h0 : (interruptStep m s).nextStartTime = 0 := by simp [interruptStep, hm]
  simp [enqueueBuffer, h0, max_eq_right ht]

/-- Witness for claim C2 at a concrete mid-session state. -/
theorem c2_witness :
    interruptMsg.interrupted = true ∧ (0 : ℚ) ≤ 2 ∧
    ((interruptStep interruptMsg demoActive).activeSources = [] ∧
     (interruptStep interruptMsg demoActive).nextStartTime = 0 ∧
     (enqueueBuffer 2 (1 / 2) (interruptStep interruptMsg demoActive)).allSources
       = (interruptStep interruptMsg demoActive).allSources
           ++ [⟨(interruptStep interruptMsg demoActive).allSources.length, 2, 1 / 2, false⟩]) :=
  ⟨rfl, by norm_num,
    c2_interrupt_resets demoActive interruptMsg rfl 2 (1 / 2) (by norm_num)⟩

/-- Claim C3: starting from a cursor at 0, enqueueing buffers of nonnegative
durations d1..dn while the device clock stays at 0 schedules exactly n
buffers, and the k-th of the newly scheduled buffers (0-based) starts at
d1 + ... + dk-1: back-to-back playback with no gap and no overlap. -/
theorem c3_gapless_scheduling (ds : List ℚ) (hds : ∀ d ∈ ds, 0 ≤ d)
    (s : VoiceState) (h0 : s.nextStartTime = 0) (k : Nat) (hk : k < ds.length) :
    (enqueueAll ds s).allSources.length = s.allSources.length + ds.length ∧
    (((enqueueAll ds s).allSources.drop s.allSources.length).map
        SourceNode.startTime).getD k 0 = (ds.take k).sum := by
  have hchar := enqueueAll_allSources ds s
  constructor
  · rw [hchar]
    simp [newNodes_length]
  · rw [hchar, List.drop_left, h0]
    have := newNodes_getD_startTime ds s.allSources.length 0 le_rfl hds k hk
    simpa using this

/-- Witness for claim C3: three buffers of durations 1, 2, 3; the third starts
at 1 + 2. -/
theorem c3_witness :
    (∀ d ∈ [(1 : ℚ), 2, 3], 0 ≤ d) ∧
    initialState.nextStartTime = 0 ∧
    ((enqueueAll [(1 : ℚ), 2, 3] initialState).allSources.length
        = initialState.allSources.length + ([(1 : ℚ), 2, 3]).length ∧
     (((enqueueAll [(1 : ℚ), 2, 3] initialState).allSources.drop
          initialState.allSources.length).map SourceNode.startTime).getD 2 0
        = ([(1 : ℚ), 2, 3].take 2).sum) :=
  ⟨by decide, rfl,
    c3_gapless_scheduling [(1 : ℚ), 2, 3] (by decide) initialState rfl 2
      (by norm_num)⟩

/-- Claim C4: on a turn-complete signal, the handler appends a user turn
exactly when the pending input text is non-empty, then a model turn exactly
when the pending output text is non-empty (user first), then clears both
accumulators; with both empty nothing is appended. Concretely: input "hi"
plus output "hello" yields [user "hi", model "hello"]; output "hi" alone
yields [model "hi"]; no fragments yield []. -/
theorem c4_turn_completion :
    (∀ s : VoiceState,
      turnCompleteStep ⟨none, none, true, none, false⟩ s
        = { s with
            transcription := s.transcription
              ++ (if s.currentInputTranscription ≠ "" then
                    [⟨Role.user, s.currentInputTranscription⟩] else [])
              ++ (if s.currentOutputTranscription ≠ "" then
                    [⟨Role.model, s.currentOutputTranscription⟩] else [])
            currentInputTranscription := ""
            currentOutputTranscription := "" }) ∧
    (turnCompleteStep ⟨none, none, true, none, false⟩
        (transcriptionStep ⟨some "hello", none, false, none, false⟩
          (transcriptionStep ⟨none, some "hi", false, none, false⟩
            initialState))).transcription
      = [⟨Role.user, "hi"⟩, ⟨Role.model, "hello"⟩] ∧
    (turnCompleteStep ⟨none, none, true, none, false⟩
        (transcriptionStep ⟨some "hi", none, false, none, false⟩
          initialState)).transcription
      = [⟨Role.model, "hi"⟩] ∧
    (turnCompleteStep ⟨none, none, true, none, false⟩ initialState).transcription
      = [] := by
  refine ⟨?_, by decide, by decide, by decide⟩
  intro s
  obtain ⟨ia, ic, er, tr, ci, co, nst, ac, al, mo, so, sc, ix, icc, ox, occ⟩ := s
  by_cases hu : ci = "" <;> by_cases hv : co = "" <;>
    simp [turnCompleteStep, hu, hv]

/-- Claim C5, evaluated at the failing inputs: the capture conversion
`int16[i] = inputData[i] * 32768` wraps modulo 2^16 instead of clamping, so
the full-scale in-range sample 1 maps to -32768 (a sign flip), and
out-of-range samples such as 3/2 and -3/2 also wrap with flipped sign instead
of mapping to the nearest 16-bit extreme. -/
theorem c5_wrap_not_clamp :
    sampleToPCM16 1 = -32768 ∧
    sampleToPCM16 (3 / 2) = -16384 ∧
    sampleToPCM16 (-3 / 2) = 16384 ∧
    floatSamplesToPCM16 [1, -1] = [-32768, -32768] := by
  refine ⟨?_, ?_, ?_, ?_⟩ <;> norm_num [sampleToPCM16, jsTrunc, toInt16,
    floatSamplesToPCM16]

/-- Claim C6: a message whose audio chunk is malformed (odd byte length, the
spec-modelled `MalformedFrame` condition) is dropped locally: the handler
throws after the cursor max-update, nothing is enqueued, no source is
touched, and none of the session's resources or flags change — in particular
`isActive` and the session ref are untouched, so subsequent events are
processed by the same (unchanged) session. -/
theorem c6_malformed_dropped (s : VoiceState) (t : ℚ) (c : Chunk)
    (hodd : ¬ c.bytes.length % 2 = 0) :
    onmessage t ⟨none, none, false, some c, false⟩ s
      = ({ s with nextStartTime := max s.nextStartTime t }, true) ∧
    (onmessage t ⟨none, none, false, some c, false⟩ s).1.activeSources
      = s.activeSources ∧
    (onmessage t ⟨none, none, false, some c, false⟩ s).1.allSources = s.allSources ∧
    (onmessage t ⟨none, none, false, some c, false⟩ s).1.isActive = s.isActive ∧
    (onmessage t ⟨none, none, false, some c, false⟩ s).1.sessionOpen
      = s.sessionOpen ∧
    (onmessage t ⟨none, none, false, some c, false⟩ s).1.error = s.error := by
  have h : onmessage t ⟨none, none, false, some c, false⟩ s
      = ({ s with nextStartTime := max s.nextStartTime t }, true) := by
    simp [onmessage, transcriptionStep, turnCompleteStep, audioStep,
      decodeAudioDataDuration, hodd]
  exact ⟨h, by rw [h], by rw [h], by rw [h], by rw [h], by rw [h]⟩

/-- Witness for claim C6 at a one-byte (malformed) chunk in a mid-session
state. -/
theorem c6_witness :
    ¬ (Chunk.mk [0]).bytes.length % 2 = 0 ∧
    (onmessage 1 ⟨none, none, false, some ⟨[0]⟩, false⟩ demoActive
       = ({ demoActive with nextStartTime := max demoActive.nextStartTime 1 }, true) ∧
     (onmessage 1 ⟨none, none, false, some ⟨[0]⟩, false⟩ demoActive).1.activeSources
       = demoActive.activeSources ∧
     (onmessage 1 ⟨none, none, false, some ⟨[0]⟩, false⟩ demoActive).1.allSources
       = demoActive.allSources ∧
     (onmessage 1 ⟨none, none, false, some ⟨[0]⟩, false⟩ demoActive).1.isActive
       = demoActive.isActive ∧
     (onmessage 1 ⟨none, none, false, some ⟨[0]⟩, false⟩ demoActive).1.sessionOpen
       = demoActive.sessionOpen ∧
     (onmessage 1 ⟨none, none, false, some ⟨[0]⟩, false⟩ demoActive).1.error
       = demoActive.error) :=
  ⟨by decide, c6_malformed_dropped demoActive 1 ⟨[0]⟩ (by decide)⟩

/-- Claim C7, counterexample: from a fully-open Active state, the first
`stopSession` invokes `close()` once on the input audio context, but a second
`stopSession` invokes it again (the context refs are never nulled), so after
two stops each audio context has received two `close()` calls — resources are
not released exactly once. -/
theorem c7_counterexample :
    (stopSession demoActive).inputCtxCloseCalls = 1 ∧
    (stopSession (stopSession demoActive)).inputCtxCloseCalls = 2 ∧
    (stopSession (stopSession demoActive)).outputCtxCloseCalls = 2 := by
  decide

/-- Claim C7, amended: calling `stopSession` twice yields the same terminal
flags (not active, not connecting, session ref null) and closes the remote
connection exactly once (its ref is nulled after the first close), and
`stopSession` before any start is a no-op; however the audio-context refs are
not cleared, so each call with a context present invokes `close()` on it
again — one close per call, not exactly once overall. -/
theorem c7_stop_amended (s : VoiceState) :
    (stopSession (stopSession s)).isActive = false ∧
    (stopSession (stopSession s)).isConnecting = false ∧
    (stopSession (stopSession s)).sessionOpen = false ∧
    (stopSession (stopSession s)).sessionCloseCalls
      = (stopSession s).sessionCloseCalls ∧
    (stopSession s).sessionCloseCalls
      = s.sessionCloseCalls + (if s.sessionOpen then 1 else 0) ∧
    (stopSession (stopSession s)).inputCtxCloseCalls
      = (stopSession s).inputCtxCloseCalls + (if s.inputCtxSet then 1 else 0) ∧
    (stopSession (stopSession s)).outputCtxCloseCalls
      = (stopSession s).outputCtxCloseCalls + (if s.outputCtxSet then 1 else 0) ∧
    stopSession initialState = initialState := by
  obtain ⟨ia, ic, er, tr, ci, co, nst, ac, al, mo, so, sc, ix, icc, ox, occ⟩ := s
  cases so <;> cases ix <;> cases ox <;>
    simp [stopSession, initialState]

/-- Claim C8, counterexample: a remote close arriving in the Active state
(the `onclose` callback) tears the session down but surfaces no error — the
error field stays `none`, a silent failure, contrary to the claim that every
remote close not requested by the caller surfaces a retryable error. -/
theorem c8_counterexample :
    demoActive.isActive = true ∧ demoActive.error = none ∧
    (onclose demoActive).isActive = false ∧
    (onclose demoActive).error = none := by
  decide

/-- Claim C8, amended: a transport error (`onerror`) surfaces the retryable
message "Connection lost. Please try again." and performs the full teardown,
after which `startSession` can immediately be called again and (in a healthy
environment) reach Active; a remote close (`onclose`) performs the same
teardown but leaves the error field unchanged — nothing is surfaced on the
close path. -/
theorem c8_error_close_amended (s : VoiceState) :
    (onerror s).error = some "Connection lost. Please try again." ∧
    (onerror s).isActive = false ∧
    (onerror s).isConnecting = false ∧
    (onerror s).sessionOpen = false ∧
    (onclose s).error = s.error ∧
    (onclose s).isActive = false ∧
    (onclose s).sessionOpen = false ∧
    (startSession false okEnv (onerror s)).1.isActive = true := by
  obtain ⟨ia, ic, er, tr, ci, co, nst, ac, al, mo, so, sc, ix, icc, ox, occ⟩ := s
  cases so <;> cases ix <;> cases ox <;>
    simp [onerror, onclose, stopSession, startSession, okEnv]

/-- Claim C9, counterexample: starting a new session does not preserve the
previously finalized transcript turns — `startSession` resets the transcript
to the empty list, so an existing turn is not a prefix of the new log. -/
theorem c9_counterexample :
    ({ initialState with
        transcription := [⟨Role.user, "hi"⟩] } : VoiceState).transcription
      = [⟨Role.user, "hi"⟩] ∧
    (startSession true okEnv
        { initialState with transcription := [⟨Role.user, "hi"⟩] }).1.transcription
      = [] ∧
    ¬ ∃ rest, [(⟨Role.user, "hi"⟩ : Turn)] ++ rest
        = (startSession true okEnv
            { initialState with transcription := [⟨Role.user, "hi"⟩] }).1.transcription := by
  refine ⟨rfl, by decide, ?_⟩
  rintro ⟨rest, h⟩
  have h2 : (startSession true okEnv
      { initialState with transcription := [⟨Role.user, "hi"⟩] }).1.transcription
      = ([] : List Turn) := by decide
  rw [h2] at h
  simp at h

/-- Claim C9, amended: within a session the transcript is append-only — every
inbound-message handler run preserves the existing log as an initial segment,
only ever appending finalized turns at the end — but `startSession` for a new
session resets the log to the empty sequence instead of preserving previous
entries. -/
theorem c9_appendonly_amended (s : VoiceState) (t : ℚ) (m : ServerMessage)
    (a : Bool) (env : Env) :
    (∃ rest, s.transcription ++ rest = (onmessage t m s).1.transcription) ∧
    (startSession a env s).1.transcription = [] := by
  constructor
  · rw [onmessage_transcription]
    have h := turnCompleteStep_appends m (transcriptionStep m s)
    simpa using h
  · unfold startSession
    cases hs : env.mediaDevicesSupported <;> cases hm : env.micError <;>
      cases hc : env.connectOpens <;> simp [hs, hm, hc]

/-- Claim C10: the handler applies a message's parts in the fixed source
order (transcription fragment, turn completion, audio chunk, interruption),
so a message carrying both a well-formed audio chunk and the interruption
flag first enqueues the chunk and then immediately stops it in the flush:
after the handler, no exception occurred, the active set is empty, the cursor
is reset, exactly one node was added, and that node is stopped — playback
never continues past an interruption. -/
theorem c10_audio_then_interrupt (s : VoiceState) (t : ℚ) (m : ServerMessage)
    (c : Chunk) (ha : m.audioData = some c) (hw : c.bytes.length % 2 = 0)
    (hi : m.interrupted = true) :
    (onmessage t m s).2 = false ∧
    (onmessage t m s).1.activeSources = [] ∧
    (onmessage t m s).1.nextStartTime = 0 ∧
    (onmessage t m s).1.allSources.length = s.allSources.length + 1 ∧
    ∀ n ∈ (onmessage t m s).1.allSources.drop s.allSources.length,
      n.stopped = true := by
  have h2all : (turnCompleteStep m (transcriptionStep m s)).allSources
      = s.allSources := by simp
  have hmsg : onmessage t m s
      = (interruptStep m (enqueueBuffer t (((c.bytes.length : ℚ) / 2) / 24000)
          (turnCompleteStep m (transcriptionStep m s))), false) := by
    simp [onmessage, audioStep, ha, decodeAudioDataDuration, hw]
  have key := enqueue_then_interrupt m hi t (((c.bytes.length : ℚ) / 2) / 24000)
    (turnCompleteStep m (transcriptionStep m s))
  rw [h2all] at key
  obtain ⟨k1, k2, k3, k4⟩ := key
  rw [hmsg]
  refine ⟨rfl, k1, k2, k3, ?_⟩
  rw [k4]
  intro n hn
  simp at hn
  rw [hn]

/-- Witness for claim C10: a two-byte chunk and the interruption flag in one
message, processed in a mid-session state. -/
theorem c10_witness :
    audioInterruptMsg.audioData = some ⟨[0, 0]⟩ ∧
    (Chunk.mk [0, 0]).bytes.length % 2 = 0 ∧
    audioInterruptMsg.interrupted = true ∧
    ((onmessage 0 audioInterruptMsg demoActive).2 = false ∧
     (onmessage 0 audioInterruptMsg demoActive).1.activeSources = [] ∧
     (onmessage 0 audioInterruptMsg demoActive).1.nextStartTime = 0 ∧
     (onmessage 0 audioInterruptMsg demoActive).1.allSources.length
       = demoActive.allSources.length + 1 ∧
     ∀ n ∈ (onmessage 0 audioInterruptMsg demoActive).1.allSources.drop
         demoActive.allSources.length, n.stopped = true) :=
  ⟨rfl, rfl, rfl,
    c10_audio_then_interrupt demoActive 0 audioInterruptMsg ⟨[0, 0]⟩ rfl rfl rfl⟩

end Studio
